import Mathlib

set_option autoImplicit false

/-!
Shallow embedding of `src/bot.py` (a chat-based personal-finance ledger).

Conventions:
* Python `str` is Lean `String`; `str.strip()` is `pyStrip` (defined on the
  character list so that proofs can evaluate it).
* SQLite rows are Lean structures; the tables are lists in insertion order,
  `AUTOINCREMENT` ids are an explicit `next_id` counter.
* bcrypt is modelled by an injective hash: `hashpw p = p` and
  `checkpw p h = (h == p)`, i.e. `checkpw` succeeds exactly on the password
  used at registration, which is the only property the code relies on.
* Timestamps are stored as ISO-8601 strings in the fixed +08:00 offset,
  exactly as `datetime.now(WITA).isoformat()` produces them; SQLite compares
  them as TEXT, which for this fixed format agrees with chronological order.
* The python-telegram-bot dispatch (`main`, bot.py:333-387) is modelled by
  `step`: group-0 handlers are tried in registration order, a
  `ConversationHandler` with no stored state only matches its entry points,
  one with a stored state matches that state's handlers, then its fallbacks,
  and otherwise lets the update fall through to later handlers
  (`allow_reentry` is False, the default).  Each `ConversationHandler` keeps
  its own per-chat state, so `GState` has one state slot per conversation.
* A Python `KeyError` escaping a handler (e.g. `context.user_data["user_id"]`
  when logged out) leaves the conversation state unchanged and sends no
  reply; mutations made before the raise persist.  The model returns the
  corresponding state explicitly at those spots.
-/

/-- Transaction kind: the `type` column, `'IN'` or `'OUT'` (bot.py:50). -/
inductive TxKind
  | IN
  | OUT
deriving DecidableEq, Repr

/-- A row of the `users` table (bot.py:38-45). -/
structure User where
  id : Nat
  username : String
  password_hash : String
  created_at : String
deriving DecidableEq, Repr

/-- A row of the `transactions` table (bot.py:46-56). -/
structure Tx where
  user_id : Nat
  type : TxKind
  amount : Int
  note : Option String
  ts : String
deriving DecidableEq, Repr

/-- The database: both tables plus the `AUTOINCREMENT` counter for `users`. -/
structure DB where
  users : List User
  next_id : Nat
  txs : List Tx
deriving DecidableEq, Repr

/-- `bcrypt.hashpw(password, gensalt())`, modelled as an injective function of
the password (the salt only matters through `checkpw`). -/
def hashpw (password : String) : String := password

/-- `bcrypt.checkpw(password, hash)`: true exactly when `password` is the one
that produced `hash`. -/
def checkpw (password h : String) : Bool := h == password

/-- `find_user` (bot.py:60-66): first row of `users` with this username. -/
def find_user (db : DB) (username : String) : Option User :=
  db.users.find? (fun u => u.username == username)

/-- `create_user` (bot.py:68-77): INSERT a fresh user row.  The UNIQUE
constraint on `username` makes the INSERT raise on a duplicate, in which case
nothing is committed; callers (bot.py:147) check freshness first. -/
def create_user (db : DB) (username password now : String) : DB :=
  if (find_user db username).isSome then db
  else
    { db with
      users := db.users ++ [⟨db.next_id, username, hashpw password, now⟩]
      next_id := db.next_id + 1 }

/-- `verify_user` (bot.py:79-83). -/
def verify_user (db : DB) (username password : String) : Bool :=
  match find_user db username with
  | none => false
  | some u => checkpw password u.password_hash

/-- `add_tx` (bot.py:85-93): INSERT a transaction stamped `now`. -/
def add_tx (db : DB) (user_id : Nat) (tx_type : TxKind) (amount : Int)
    (note : Option String) (now : String) : DB :=
  { db with txs := db.txs ++ [⟨user_id, tx_type, amount, note, now⟩] }

/-- `sum_tx` (bot.py:95-108): `SELECT COALESCE(SUM(amount), 0) ... WHERE
user_id=? AND type=? AND ts>=? AND ts<?`, the SUM folded row by row, with
TEXT comparison on `ts` (chronological for this fixed ISO format). -/
def sum_tx (db : DB) (user_id : Nat) (tx_type : TxKind)
    (start_iso end_iso : String) : Int :=
  db.txs.foldl
    (fun acc t =>
      if t.user_id = user_id ∧ t.type = tx_type ∧
          start_iso ≤ t.ts ∧ t.ts < end_iso then
        acc + t.amount
      else acc)
    0

/-- The identity the login flow yields for a (username, password) pair:
`login_password` (bot.py:177-194) calls `verify_user` and, on success, reads
the user id back with `find_user`. -/
def login_user_id (db : DB) (username password : String) : Option Nat :=
  if verify_user db username password then (find_user db username).map (·.id)
  else none

-- ===== text utilities used by the handlers =====

/-- ASCII whitespace as Python `str.strip()` removes it. -/
def pyIsSpace (c : Char) : Bool :=
  c == ' ' || c == '\t' || c == '\n' || c == '\r' || c == '\x0b' || c == '\x0c'

/-- Python `str.strip()`: drop whitespace from both ends. -/
def pyStrip (s : String) : String :=
  ⟨((s.data.dropWhile pyIsSpace).reverse.dropWhile pyIsSpace).reverse⟩

/-- `s.replace(c, "")` for a single-character pattern: drop every occurrence
of `c`. -/
def removeChar (s : String) (c : Char) : String :=
  ⟨s.data.filter (fun a => a ≠ c)⟩

/-- Python `str.isdigit()` restricted to the decimal digits `'0'..'9'`
(the only inputs the bot's protocol produces): non-empty and all digits. -/
def pyIsdigit (s : String) : Bool :=
  !s.data.isEmpty && s.data.all Char.isDigit

/-- Python `int(text)` on an all-decimal-digits string. -/
def toNatDigits (l : List Char) : Nat :=
  l.foldl (fun a c => 10 * a + (c.toNat - 48)) 0

/-- The amount-input normalisation of `in_amount`/`out_amount`
(bot.py:210, 236): `text.strip().replace(".", "").replace(",", "")`. -/
def stripSeps (text : String) : String :=
  removeChar (removeChar (pyStrip text) '.') ','

/-- Digit grouping of `f"{n:,}"` for a natural number, with explicit fuel
(structural recursion; fuel `n` always suffices since `n / 1000 < n`). -/
def groupAux : Nat → Nat → String
  | 0, n => toString n
  | fuel + 1, n =>
    if n < 1000 then toString n
    else groupAux fuel (n / 1000) ++ "," ++
      (let r := toString (n % 1000)
       String.mk (List.replicate (3 - r.length) '0') ++ r)

/-- `f"{n:,}"` for `n : Int` (a minus sign, then the grouped magnitude). -/
def commaFormat (n : Int) : String :=
  if n < 0 then "-" ++ groupAux n.natAbs n.natAbs
  else groupAux n.toNat n.toNat

/-- `rupiah` (bot.py:26-27): `"Rp." + f"{int(n):,}".replace(",", ".")`. -/
def rupiah (n : Int) : String :=
  "Rp." ++ String.mk ((commaFormat n).data.map (fun c => if c == ',' then '.' else c))

-- ===== session (context.user_data) =====

/-- The per-chat `context.user_data` dict: each key the code ever writes is
one optional field (absent key = `none`). -/
structure UserData where
  user_id : Option Nat
  username : Option String
  reg_username : Option String
  login_username : Option String
  tmp_amount : Option Nat
deriving DecidableEq, Repr

/-- `is_logged_in` (bot.py:111-112): `"user_id" in context.user_data`. -/
def is_logged_in (ud : UserData) : Bool := ud.user_id.isSome

-- ===== conversation states (bot.py:125-128) =====

/-- States of the register conversation. -/
inductive RegSt
  | username
  | password
deriving DecidableEq, Repr

/-- States of the login conversation. -/
inductive LoginSt
  | username
  | password
deriving DecidableEq, Repr

/-- States of the add-income / add-expense conversations (identical shape). -/
inductive TxSt
  | amount
  | note
deriving DecidableEq, Repr

-- ===== calendar / datetime in the fixed +08:00 offset (WITA, bot.py:23) =====

/-- A proleptic-Gregorian calendar date (as Python `datetime.date`). -/
structure Date where
  year : Nat
  month : Nat
  day : Nat
deriving DecidableEq, Repr

/-- A wall-clock instant in the fixed +08:00 offset (a Python aware
`datetime` with `tzinfo=WITA`; the offset is constant so it never appears in
the arithmetic). -/
structure DT where
  date : Date
  hour : Nat
  minute : Nat
  second : Nat
  usec : Nat
deriving DecidableEq, Repr

/-- Gregorian leap-year rule. -/
def isLeap (y : Nat) : Bool :=
  (y % 4 == 0 && y % 100 != 0) || y % 400 == 0

/-- Days in a month of a given year. -/
def daysInMonth (y m : Nat) : Nat :=
  if m = 2 then (if isLeap y then 29 else 28)
  else if m = 4 ∨ m = 6 ∨ m = 9 ∨ m = 11 then 30
  else 31

/-- Validity of a date (what Python's `date` constructor enforces). -/
def Date.Valid (d : Date) : Prop :=
  1 ≤ d.year ∧ 1 ≤ d.month ∧ d.month ≤ 12 ∧ 1 ≤ d.day ∧
    d.day ≤ daysInMonth d.year d.month

instance (d : Date) : Decidable d.Valid := by
  unfold Date.Valid; infer_instance

/-- Validity of an instant. -/
def DT.Valid (t : DT) : Prop :=
  t.date.Valid ∧ t.hour < 24 ∧ t.minute < 60 ∧ t.second < 60 ∧
    t.usec < 1000000

instance (t : DT) : Decidable t.Valid := by
  unfold DT.Valid; infer_instance

/-- The next calendar day (`+ timedelta(days=1)` on a date). -/
def dateSucc (d : Date) : Date :=
  if d.day < daysInMonth d.year d.month then ⟨d.year, d.month, d.day + 1⟩
  else if d.month < 12 then ⟨d.year, d.month + 1, 1⟩
  else ⟨d.year + 1, 1, 1⟩

/-- The previous calendar day (`- timedelta(days=1)` on a date). -/
def datePred (d : Date) : Date :=
  if 1 < d.day then ⟨d.year, d.month, d.day - 1⟩
  else if 1 < d.month then ⟨d.year, d.month - 1, daysInMonth d.year (d.month - 1)⟩
  else ⟨d.year - 1, 12, 31⟩

/-- `d + timedelta(days=n)`. -/
def addDays : Nat → Date → Date
  | 0, d => d
  | n + 1, d => addDays n (dateSucc d)

/-- `d - timedelta(days=n)`. -/
def subDays : Nat → Date → Date
  | 0, d => d
  | n + 1, d => subDays n (datePred d)

/-- Days of year `y` strictly before month `m`. -/
def daysBeforeMonth (y : Nat) : Nat → Nat
  | 0 => 0
  | 1 => 0
  | m + 1 => daysBeforeMonth y m + daysInMonth y m

/-- Python's `date.toordinal()`: day number in the proleptic Gregorian
calendar with `0001-01-01` as day 1. -/
def toordinal (d : Date) : Nat :=
  365 * (d.year - 1) + (d.year - 1) / 4 - (d.year - 1) / 100 +
    (d.year - 1) / 400 + daysBeforeMonth d.year d.month + d.day

/-- Python's `date.weekday()`: Monday = 0 (`0001-01-01` was a Monday). -/
def weekday (d : Date) : Nat := (toordinal d + 6) % 7

/-- Microseconds since midnight. -/
def timeOfDay (t : DT) : Nat :=
  (t.hour * 3600 + t.minute * 60 + t.second) * 1000000 + t.usec

/-- A linear chronological key for instants (microseconds since the epoch);
two instants compare under this key exactly as the code's ISO-8601 strings
compare as TEXT. -/
def dtKey (t : DT) : Nat :=
  toordinal t.date * 86400000000 + timeOfDay t

/-- Membership of a chronological key in a half-open range of instants. -/
def inRange (r : DT × DT) (k : Nat) : Prop :=
  dtKey r.1 ≤ k ∧ k < dtKey r.2

/-- `now.replace(hour=0, minute=0, second=0, microsecond=0)`. -/
def atMidnight (now : DT) : DT :=
  { now with hour := 0, minute := 0, second := 0, usec := 0 }

/-- `today_range` (bot.py:254-258): `[midnight today, midnight tomorrow)`. -/
def today_range (now : DT) : DT × DT :=
  let start := atMidnight now
  (start, { start with date := addDays 1 start.date })

/-- `week_range_monday` (bot.py:260-265): `[Monday 00:00, +7 days)`. -/
def week_range_monday (now : DT) : DT × DT :=
  let start0 := atMidnight now
  let start := { start0 with date := subDays (weekday start0.date) start0.date }
  (start, { start with date := addDays 7 start.date })

/-- `month_range` (bot.py:267-274): `[1st 00:00, 1st of next month 00:00)`,
with the explicit December-to-January branch of the source. -/
def month_range (now : DT) : DT × DT :=
  let start := { atMidnight now with date := { now.date with day := 1 } }
  let endDate : Date :=
    if start.date.month = 12 then ⟨start.date.year + 1, 1, 1⟩
    else ⟨start.date.year, start.date.month + 1, 1⟩
  (start, { start with date := endDate })

-- ===== ISO-8601 rendering (datetime.isoformat on a +08:00 datetime) =====

/-- Left-pad a numeral with zeros to the given width. -/
def padNum (width n : Nat) : String :=
  let r := toString n
  String.mk (List.replicate (width - r.length) '0') ++ r

/-- `datetime.isoformat()` for a +08:00 instant: the fractional part is
omitted when `microsecond == 0`, exactly as in Python. -/
def isoOf (t : DT) : String :=
  padNum 4 t.date.year ++ "-" ++ padNum 2 t.date.month ++ "-" ++
    padNum 2 t.date.day ++ "T" ++ padNum 2 t.hour ++ ":" ++
    padNum 2 t.minute ++ ":" ++ padNum 2 t.second ++
    (if t.usec = 0 then "" else "." ++ padNum 6 t.usec) ++ "+08:00"

-- ===== handler callbacks (bot.py:131-331) =====

/-- Result of one handler invocation on one conversation: updated session
dict, updated database, the state the callback returns for its conversation
(`none` = `ConversationHandler.END` or an exception leaving no new state —
the caller records which), and the reply sent (if any). -/
structure HandlerOut (σ : Type) where
  ud : UserData
  db : DB
  state : Option σ
  reply : Option String
deriving Repr

/-- `reg_username` (bot.py:142-152): trim; length < 3 or taken re-prompts and
stays; otherwise stash the username and advance.  Never touches the DB. -/
def reg_username (ud : UserData) (db : DB) (text : String) :
    HandlerOut RegSt :=
  let username := (pyStrip text)
  if username.length < 3 then
    ⟨ud, db, some RegSt.username, some "Username minimal 3 karakter. Coba lagi:"⟩
  else if (find_user db username).isSome then
    ⟨ud, db, some RegSt.username, some "Username sudah dipakai. Coba username lain:"⟩
  else
    ⟨{ ud with reg_username := some username }, db, some RegSt.password,
      some "Buat password (minimal 6 karakter):"⟩

/-- `reg_password` (bot.py:154-165): trim; length < 6 re-prompts and stays;
otherwise create the user with the stashed username and end.  A missing
`reg_username` key would raise `KeyError` (state stays, nothing mutated), and
a duplicate INSERT would raise `IntegrityError` (state stays, no commit). -/
def reg_password (ud : UserData) (db : DB) (text now : String) :
    HandlerOut RegSt :=
  let password := (pyStrip text)
  if password.length < 6 then
    ⟨ud, db, some RegSt.password, some "Password minimal 6 karakter. Coba lagi:"⟩
  else
    match ud.reg_username with
    | none => ⟨ud, db, some RegSt.password, none⟩
    | some username =>
      if (find_user db username).isSome then
        ⟨ud, db, some RegSt.password, none⟩
      else
        ⟨{ ud with reg_username := none }, create_user db username password now,
          none, some "Registrasi berhasil ✅\nSekarang ketik /login untuk masuk."⟩

/-- `login_username` (bot.py:172-175): stash the trimmed text, advance. -/
def login_username (ud : UserData) (db : DB) (text : String) :
    HandlerOut LoginSt :=
  ⟨{ ud with login_username := some (pyStrip text) }, db, some LoginSt.password,
    some "Password:"⟩

/-- `login_password` (bot.py:177-194): pop the stashed username (default
`""`), verify; on failure end with a notice; on success set the session's
`user_id`/`username` and end. -/
def login_password (ud : UserData) (db : DB) (text : String) :
    HandlerOut LoginSt :=
  let username := ud.login_username.getD ""
  let password := (pyStrip text)
  let ud0 := { ud with login_username := none }
  if !verify_user db username password then
    ⟨ud0, db, none,
      some "Login gagal ❌ Username/password salah.\nKetik /login untuk coba lagi."⟩
  else
    match find_user db username with
    | none => ⟨ud0, db, none, none⟩
    | some u =>
      ⟨{ ud0 with user_id := some u.id, username := some username }, db, none,
        some ("Login berhasil ✅ Selamat datang, " ++ username ++ "!")⟩

/-- `in_start` (bot.py:202-207): entry guard — not logged in ends at once. -/
def in_start (ud : UserData) (db : DB) : HandlerOut TxSt :=
  if !is_logged_in ud then
    ⟨ud, db, none, some "Kamu belum login. Ketik /login dulu."⟩
  else
    ⟨ud, db, some TxSt.amount,
      some "Masukkan nominal UANG MASUK (angka saja). Contoh: 50000"⟩

/-- `in_amount` (bot.py:209-216): strip `.` and `,`; non-digits re-prompt and
stay; otherwise stash the parsed amount and advance. -/
def in_amount (ud : UserData) (db : DB) (text : String) : HandlerOut TxSt :=
  let t := stripSeps text
  if !pyIsdigit t then
    ⟨ud, db, some TxSt.amount, some "Nominal harus angka. Coba lagi:"⟩
  else
    ⟨{ ud with tmp_amount := some (toNatDigits t.data) }, db, some TxSt.note,
      some "Catatan (boleh kosong, ketik \x27-\x27 untuk skip):"⟩

/-- `in_note` (bot.py:218-225): `'-'` means no note; pop `tmp_amount` with
default 0; record the transaction and confirm.  Reading
`user_data["user_id"]` raises `KeyError` when logged out: the pop has already
happened, nothing is inserted, the state stays, no reply. -/
def in_note (ud : UserData) (db : DB) (text now : String) : HandlerOut TxSt :=
  let note0 := (pyStrip text)
  let note := if note0 = "-" then none else some note0
  let amount := ud.tmp_amount.getD 0
  let ud0 := { ud with tmp_amount := none }
  match ud.user_id with
  | none => ⟨ud0, db, some TxSt.note, none⟩
  | some uid =>
    ⟨ud0, add_tx db uid TxKind.IN amount note now, none,
      some ("✅ Uang masuk tercatat: " ++ rupiah amount)⟩

/-- `out_start` (bot.py:228-233). -/
def out_start (ud : UserData) (db : DB) : HandlerOut TxSt :=
  if !is_logged_in ud then
    ⟨ud, db, none, some "Kamu belum login. Ketik /login dulu."⟩
  else
    ⟨ud, db, some TxSt.amount,
      some "Masukkan nominal UANG KELUAR (angka saja). Contoh: 25000"⟩

/-- `out_amount` (bot.py:235-242): identical to `in_amount`. -/
def out_amount (ud : UserData) (db : DB) (text : String) : HandlerOut TxSt :=
  let t := stripSeps text
  if !pyIsdigit t then
    ⟨ud, db, some TxSt.amount, some "Nominal harus angka. Coba lagi:"⟩
  else
    ⟨{ ud with tmp_amount := some (toNatDigits t.data) }, db, some TxSt.note,
      some "Catatan (boleh kosong, ketik \x27-\x27 untuk skip):"⟩

/-- `out_note` (bot.py:244-251): identical to `in_note` with kind OUT. -/
def out_note (ud : UserData) (db : DB) (text now : String) : HandlerOut TxSt :=
  let note0 := (pyStrip text)
  let note := if note0 = "-" then none else some note0
  let amount := ud.tmp_amount.getD 0
  let ud0 := { ud with tmp_amount := none }
  match ud.user_id with
  | none => ⟨ud0, db, some TxSt.note, none⟩
  | some uid =>
    ⟨ud0, add_tx db uid TxKind.OUT amount note now, none,
      some ("✅ Uang keluar tercatat: " ++ rupiah amount)⟩

/-- `cancel` (bot.py:326-331): pop the three scratch keys, notify.  Ends the
conversation whose fallback it ran as; never touches `user_id`/`username`. -/
def cancel (ud : UserData) : UserData × String :=
  ({ ud with tmp_amount := none, reg_username := none, login_username := none },
    "Dibatalkan.")

/-- `logout_cmd` (bot.py:196-199): pop the authentication keys. -/
def logout_cmd (ud : UserData) : UserData × String :=
  ({ ud with user_id := none, username := none },
    "Kamu sudah logout. Ketik /login untuk masuk lagi.")

-- ===== report handlers (bot.py:276-309) =====

/-- `report_in_today` (bot.py:276-282): guard, then sum IN over today. -/
def report_in_today (ud : UserData) (db : DB) (now : DT) : String :=
  if !is_logged_in ud then "Kamu belum login. Ketik /login dulu."
  else
    let r := today_range now
    let total := sum_tx db (ud.user_id.getD 0) TxKind.IN (isoOf r.1) (isoOf r.2)
    "📅 Uang MASUK hari ini: " ++ rupiah total

/-- `report_out_week` (bot.py:284-293). -/
def report_out_week (ud : UserData) (db : DB) (now : DT) : String :=
  if !is_logged_in ud then "Kamu belum login. Ketik /login dulu."
  else
    let r := week_range_monday now
    let total := sum_tx db (ud.user_id.getD 0) TxKind.OUT (isoOf r.1) (isoOf r.2)
    "🗓️ Uang KELUAR minggu ini (Senin–Minggu): " ++ rupiah total

/-- `report_month` (bot.py:295-309): income, expense and their difference
(`saldo` may be negative). -/
def report_month (ud : UserData) (db : DB) (now : DT) : String :=
  if !is_logged_in ud then "Kamu belum login. Ketik /login dulu."
  else
    let r := month_range now
    let masuk := sum_tx db (ud.user_id.getD 0) TxKind.IN (isoOf r.1) (isoOf r.2)
    let keluar := sum_tx db (ud.user_id.getD 0) TxKind.OUT (isoOf r.1) (isoOf r.2)
    "📆 Rekap BULAN ini:\n- Masuk : " ++ rupiah masuk ++
      "\n- Keluar: " ++ rupiah keluar ++ "\n- Saldo : " ++ rupiah (masuk - keluar)

-- ===== dispatch (main, bot.py:333-387) =====

/-- The whole per-chat state: session dict, database, and the stored state of
each of the four `ConversationHandler`s (each tracks its own per-chat state;
`none` = that conversation is not active). -/
structure GState where
  ud : UserData
  db : DB
  regS : Option RegSt
  loginS : Option LoginSt
  inS : Option TxSt
  outS : Option TxSt
deriving DecidableEq, Repr

/-- Fresh process state: empty session, empty tables (AUTOINCREMENT ids
start at 1), no conversation active. -/
def gInit : GState :=
  ⟨⟨none, none, none, none, none⟩, ⟨[], 1, []⟩, none, none, none, none⟩

/-- A Telegram command message (`filters.COMMAND`: text starting with `/`). -/
def isCommand (text : String) : Bool :=
  match text.data with
  | [] => false
  | c :: _ => c == '/' 

/-- How many of the four conversations currently hold a state. -/
def activeCount (g : GState) : Nat :=
  (if g.regS.isSome then 1 else 0) + (if g.loginS.isSome then 1 else 0) +
    (if g.inS.isSome then 1 else 0) + (if g.outS.isSome then 1 else 0)

/-- `reg_conv` (bot.py:339-346) as PTB checks it: inactive → only the
`/register` entry point; active → the state's TEXT·¬COMMAND handler, else the
`/cancel` fallback, else the update falls through (`none`). -/
def regConv (g : GState) (text now : String) : Option (GState × Option String) :=
  match g.regS with
  | none =>
    if text == "/register" then
      some ({ g with regS := some RegSt.username }, some "Buat username:")
    else none
  | some st =>
    if !isCommand text then
      some (match st with
        | RegSt.username =>
          let r := reg_username g.ud g.db text
          ({ g with ud := r.ud, db := r.db, regS := r.state }, r.reply)
        | RegSt.password =>
          let r := reg_password g.ud g.db text now
          ({ g with ud := r.ud, db := r.db, regS := r.state }, r.reply))
    else if text == "/cancel" then
      let c := cancel g.ud
      some ({ g with ud := c.1, regS := none }, some c.2)
    else none

/-- `login_conv` (bot.py:348-355). -/
def loginConv (g : GState) (text : String) : Option (GState × Option String) :=
  match g.loginS with
  | none =>
    if text == "/login" then
      some ({ g with loginS := some LoginSt.username }, some "Username:")
    else none
  | some st =>
    if !isCommand text then
      some (match st with
        | LoginSt.username =>
          let r := login_username g.ud g.db text
          ({ g with ud := r.ud, db := r.db, loginS := r.state }, r.reply)
        | LoginSt.password =>
          let r := login_password g.ud g.db text
          ({ g with ud := r.ud, db := r.db, loginS := r.state }, r.reply))
    else if text == "/cancel" then
      let c := cancel g.ud
      some ({ g with ud := c.1, loginS := none }, some c.2)
    else none

/-- `in_conv` (bot.py:357-364): entry point is the exact-match regex
`^➕ Uang Masuk$` on a plain-text message. -/
def inConv (g : GState) (text now : String) : Option (GState × Option String) :=
  match g.inS with
  | none =>
    if text == "➕ Uang Masuk" then
      let r := in_start g.ud g.db
      some ({ g with ud := r.ud, db := r.db, inS := r.state }, r.reply)
    else none
  | some st =>
    if !isCommand text then
      some (match st with
        | TxSt.amount =>
          let r := in_amount g.ud g.db text
          ({ g with ud := r.ud, db := r.db, inS := r.state }, r.reply)
        | TxSt.note =>
          let r := in_note g.ud g.db text now
          ({ g with ud := r.ud, db := r.db, inS := r.state }, r.reply))
    else if text == "/cancel" then
      let c := cancel g.ud
      some ({ g with ud := c.1, inS := none }, some c.2)
    else none

/-- `out_conv` (bot.py:366-373): entry regex `^➖ Uang Keluar$`. -/
def outConv (g : GState) (text now : String) : Option (GState × Option String) :=
  match g.outS with
  | none =>
    if text == "➖ Uang Keluar" then
      let r := out_start g.ud g.db
      some ({ g with ud := r.ud, db := r.db, outS := r.state }, r.reply)
    else none
  | some st =>
    if !isCommand text then
      some (match st with
        | TxSt.amount =>
          let r := out_amount g.ud g.db text
          ({ g with ud := r.ud, db := r.db, outS := r.state }, r.reply)
        | TxSt.note =>
          let r := out_note g.ud g.db text now
          ({ g with ud := r.ud, db := r.db, outS := r.state }, r.reply))
    else if text == "/cancel" then
      let c := cancel g.ud
      some ({ g with ud := c.1, outS := none }, some c.2)
    else none

/-- `menu_router` (bot.py:312-324): strips the text and matches the four menu
labels; anything else does nothing (but the update is consumed). -/
def menu_router (ud : UserData) (db : DB) (text : String) (now : DT) :
    UserData × Option String :=
  let t := (pyStrip text)
  if t == "📅 Masuk Hari Ini" then (ud, some (report_in_today ud db now))
  else if t == "🗓️ Keluar Minggu Ini" then (ud, some (report_out_week ud db now))
  else if t == "📆 Rekap Bulan Ini" then (ud, some (report_month ud db now))
  else if t == "🚪 Logout" then
    let r := logout_cmd ud
    (r.1, some r.2)
  else (ud, none)

/-- One inbound text message through the group-0 handler chain in its
registration order (bot.py:337-384): `/start`, then the four conversations,
then the TEXT·¬COMMAND menu router, then the `/logout` command.  `now` is the
wall clock at processing time (used for inserted timestamps and reports). -/
def step (g : GState) (text : String) (now : DT) : GState × Option String :=
  if text == "/start" then
    (g, some ("Halo! Ini bot pencatatan keuangan.\n" ++
      "Ketik /register untuk daftar atau /login untuk masuk."))
  else match regConv g text (isoOf now) with
  | some r => r
  | none =>
    match loginConv g text with
    | some r => r
    | none =>
      match inConv g text (isoOf now) with
      | some r => r
      | none =>
        match outConv g text (isoOf now) with
        | some r => r
        | none =>
          if !isCommand text then
            let r := menu_router g.ud g.db text now
            ({ g with ud := r.1 }, r.2)
          else if text == "/logout" then
            let r := logout_cmd g.ud
            ({ g with ud := r.1 }, some r.2)
          else (g, none)

/-- Run a list of messages from a state (clock `now` fixed; none of the
claims depend on it advancing). -/
def runMsgs (g : GState) (msgs : List String) (now : DT) : GState :=
  msgs.foldl (fun s t => (step s t now).1) g

/-- A state with only the register dialogue active, at its username step. -/
def gRegActive : GState :=
  ⟨⟨none, none, none, none, none⟩, ⟨[], 1, []⟩, some RegSt.username, none,
    none, none⟩

/-- A logged-in state with only the expense dialogue active, at its note
step, with a scratch amount present. -/
def gOutNote : GState :=
  ⟨⟨some 7, some "alice", none, none, some 3⟩, ⟨[], 1, []⟩, none, none, none,
    some TxSt.note⟩


-- ===== helper lemmas =====

/-- After a fresh insert, `find_user` returns exactly the inserted row. -/
lemma find_user_create_self (db : DB) (u p now : String)
    (hfresh : find_user db u = none) :
    find_user (create_user db u p now) u =
      some ⟨db.next_id, u, hashpw p, now⟩ := by
  unfold create_user
  rw [hfresh]
  simp only [Option.isSome_none, Bool.false_eq_true, if_false]
  unfold find_user at hfresh ⊢
  simp only
  rw [List.find?_append, hfresh]
  simp

/-- Row-by-row conditional SUM equals the sum over the filtered rows. -/
lemma foldl_if_filter (P : Tx → Prop) [DecidablePred P] (l : List Tx)
    (acc : Int) :
    l.foldl (fun acc t => if P t then acc + t.amount else acc) acc =
      acc + ((l.filter (fun t => decide (P t))).map Tx.amount).sum := by
  induction l generalizing acc with
  | nil => simp
  | cons t l ih =>
    by_cases h : P t
    · rw [List.foldl_cons, if_pos h, ih,
        List.filter_cons_of_pos (by simpa using h), List.map_cons,
        List.sum_cons]
      ring
    · rw [List.foldl_cons, if_neg h, ih,
        List.filter_cons_of_neg (by simpa using h)]

-- ===== claims =====

/-- C1: for any username of length ≥ 3 and password of length ≥ 6 that is
registrable (not already taken), `create_user` followed by the login flow's
verification (`verify_user` and then `find_user`, bot.py:182-187) succeeds
and yields exactly the identity the registration created (`db.next_id`). -/
theorem register_then_verify_same_identity (db : DB) (u p now : String)
    (hu : 3 ≤ u.length) (hp : 6 ≤ p.length)
    (hfresh : find_user db u = none) :
    verify_user (create_user db u p now) u p = true ∧
    login_user_id (create_user db u p now) u p = some db.next_id ∧
    find_user (create_user db u p now) u =
      some ⟨db.next_id, u, hashpw p, now⟩ := by
  have hnew := find_user_create_self db u p now hfresh
  have hver : verify_user (create_user db u p now) u p = true := by
    unfold verify_user
    rw [hnew]
    simp [checkpw, hashpw]
  refine ⟨hver, ?_, hnew⟩
  unfold login_user_id
  rw [hver, hnew]
  simp

/-- C1 witness: registering `("alice", "secret1")` into an empty store and
verifying the same pair yields the created identity 1. -/
theorem register_then_verify_same_identity_witness :
    3 ≤ ("alice" : String).length ∧ 6 ≤ ("secret1" : String).length ∧
    find_user ⟨[], 1, []⟩ "alice" = none ∧
    (verify_user (create_user ⟨[], 1, []⟩ "alice" "secret1" "t0") "alice"
        "secret1" = true ∧
      login_user_id (create_user ⟨[], 1, []⟩ "alice" "secret1" "t0") "alice"
        "secret1" = some 1 ∧
      find_user (create_user ⟨[], 1, []⟩ "alice" "secret1" "t0") "alice" =
        some ⟨1, "alice", hashpw "secret1", "t0"⟩) :=
  ⟨by decide, by decide, rfl,
    register_then_verify_same_identity ⟨[], 1, []⟩ "alice" "secret1" "t0"
      (by decide) (by decide) rfl⟩

/-- C3: `sum_tx` returns the sum of `amount` over exactly the transactions of
the given owner and kind whose timestamp satisfies `start ≤ ts < end`
(start-inclusive, end-exclusive); a transaction with a timestamp outside the
range never contributes, and with no matching transaction the result is the
integer 0 (the fold's initial value — never null/absent). -/
theorem sum_tx_range_semantics (db : DB) (uid : Nat) (k : TxKind)
    (s e : String) :
    sum_tx db uid k s e =
      ((db.txs.filter (fun t =>
        decide (t.user_id = uid ∧ t.type = k ∧ s ≤ t.ts ∧ t.ts < e))).map
          Tx.amount).sum ∧
    (∀ t : Tx, ¬(s ≤ t.ts ∧ t.ts < e) →
      sum_tx { db with txs := db.txs ++ [t] } uid k s e =
        sum_tx db uid k s e) ∧
    ((∀ t ∈ db.txs, ¬(t.user_id = uid ∧ t.type = k ∧ s ≤ t.ts ∧ t.ts < e)) →
      sum_tx db uid k s e = 0) := by
  have key : sum_tx db uid k s e =
      ((db.txs.filter (fun t =>
        decide (t.user_id = uid ∧ t.type = k ∧ s ≤ t.ts ∧ t.ts < e))).map
          Tx.amount).sum := by
    unfold sum_tx
    rw [foldl_if_filter (fun t =>
      t.user_id = uid ∧ t.type = k ∧ s ≤ t.ts ∧ t.ts < e), zero_add]
  refine ⟨key, ?_, ?_⟩
  · intro t ht
    unfold sum_tx
    rw [List.foldl_append, List.foldl_cons, List.foldl_nil]
    have hno : ¬(t.user_id = uid ∧ t.type = k ∧ s ≤ t.ts ∧ t.ts < e) := by
      intro hc
      exact ht ⟨hc.2.2.1, hc.2.2.2⟩
    rw [if_neg hno]
  · intro hnone
    have hnil : db.txs.filter (fun t =>
        decide (t.user_id = uid ∧ t.type = k ∧ s ≤ t.ts ∧ t.ts < e)) = [] := by
      rw [List.filter_eq_nil_iff]
      intro a ha
      simpa using hnone a ha
    rw [key, hnil]
    simp

/-- C3 witness: a ledger with one transaction at the range's end timestamp is
excluded, and the empty match gives 0. -/
theorem sum_tx_range_semantics_witness :
    (¬(("a" : String) ≤ "b" ∧ ("b" : String) < "b")) ∧
    sum_tx ⟨[], 1, [⟨1, TxKind.IN, 5, none, "b"⟩]⟩ 1 TxKind.IN "a" "b" =
      sum_tx ⟨[], 1, []⟩ 1 TxKind.IN "a" "b" := by
  have h : ¬(("a" : String) ≤ "b" ∧ ("b" : String) < "b") := by
    intro hc
    exact absurd hc.2 (lt_irrefl _)
  exact ⟨h, (sum_tx_range_semantics ⟨[], 1, []⟩ 1 TxKind.IN "a" "b").2.1
    ⟨1, TxKind.IN, 5, none, "b"⟩ h⟩

/-- C5: the registration flow fails with the invalid-username re-prompt when
the (trimmed) username is shorter than 3, with the duplicate-username
re-prompt when it is already taken, with the invalid-password re-prompt when
the (trimmed) password is shorter than 6, and creates the user exactly when
all three conditions are avoided (the failure branches leave the database
untouched). -/
theorem register_validation (ud : UserData) (db : DB)
    (utext ptext now : String) :
    ((pyStrip utext).length < 3 →
      reg_username ud db utext =
        ⟨ud, db, some RegSt.username,
          some "Username minimal 3 karakter. Coba lagi:"⟩) ∧
    (3 ≤ (pyStrip utext).length → (find_user db (pyStrip utext)).isSome →
      reg_username ud db utext =
        ⟨ud, db, some RegSt.username,
          some "Username sudah dipakai. Coba username lain:"⟩) ∧
    (3 ≤ (pyStrip utext).length → find_user db (pyStrip utext) = none →
      reg_username ud db utext =
        ⟨{ ud with reg_username := some (pyStrip utext) }, db, some RegSt.password,
          some "Buat password (minimal 6 karakter):"⟩) ∧
    ((pyStrip ptext).length < 6 →
      reg_password ud db ptext now =
        ⟨ud, db, some RegSt.password,
          some "Password minimal 6 karakter. Coba lagi:"⟩) ∧
    (6 ≤ (pyStrip ptext).length → ud.reg_username = some (pyStrip utext) →
      find_user db (pyStrip utext) = none →
      reg_password ud db ptext now =
        ⟨{ ud with reg_username := none },
          create_user db (pyStrip utext) (pyStrip ptext) now, none,
          some "Registrasi berhasil ✅\nSekarang ketik /login untuk masuk."⟩ ∧
      (create_user db (pyStrip utext) (pyStrip ptext) now).users =
        db.users ++ [⟨db.next_id, (pyStrip utext), hashpw (pyStrip ptext), now⟩]) := by
  refine ⟨?_, ?_, ?_, ?_, ?_⟩
  · intro h
    unfold reg_username
    rw [if_pos h]
  · intro h hdup
    unfold reg_username
    rw [if_neg (by omega), if_pos hdup]
  · intro h hfresh
    unfold reg_username
    rw [if_neg (by omega), if_neg (by simp [hfresh])]
  · intro h
    unfold reg_password
    rw [if_pos h]
  · intro h hstash hfresh
    constructor
    · unfold reg_password
      rw [if_neg (by omega), hstash]
      simp only
      rw [if_neg (by simp [hfresh])]
    · unfold create_user
      rw [hfresh]
      simp

/-- C5 witness: a length-2 username re-prompts; on a fresh store,
`("bob", "hunter2")` is created. -/
theorem register_validation_witness :
    ((pyStrip "ab").length < 3 →
      reg_username ⟨none, none, none, none, none⟩ ⟨[], 1, []⟩ "ab" =
        ⟨⟨none, none, none, none, none⟩, ⟨[], 1, []⟩, some RegSt.username,
          some "Username minimal 3 karakter. Coba lagi:"⟩) ∧
    ((pyStrip "ab").length < 3) ∧
    (6 ≤ (pyStrip "hunter2").length →
      (⟨none, none, some "bob", none, none⟩ : UserData).reg_username =
        some (pyStrip "bob") →
      find_user ⟨[], 1, []⟩ (pyStrip "bob") = none →
      reg_password ⟨none, none, some "bob", none, none⟩ ⟨[], 1, []⟩
          "hunter2" "t0" =
        ⟨⟨none, none, none, none, none⟩,
          create_user ⟨[], 1, []⟩ "bob" "hunter2" "t0", none,
          some "Registrasi berhasil ✅\nSekarang ketik /login untuk masuk."⟩ ∧
      (create_user ⟨[], 1, []⟩ "bob" "hunter2" "t0").users =
        [] ++ [⟨1, "bob", hashpw "hunter2", "t0"⟩]) :=
  ⟨(register_validation ⟨none, none, none, none, none⟩ ⟨[], 1, []⟩ "ab" "x"
      "t0").1,
    by decide,
    (register_validation ⟨none, none, some "bob", none, none⟩ ⟨[], 1, []⟩
      "bob" "hunter2" "t0").2.2.2.2⟩

/-- C7: `verify_user` returns the same observable outcome — the boolean
`false` — for a non-existent username as for an existing username with a
password whose check fails; the caller cannot distinguish the two cases. -/
theorem verify_failure_indistinguishable (db : DB) (u1 p1 u2 p2 : String)
    (r : User) (h1 : find_user db u1 = none) (h2 : find_user db u2 = some r)
    (h3 : checkpw p2 r.password_hash = false) :
    verify_user db u1 p1 = verify_user db u2 p2 ∧
    verify_user db u1 p1 = false := by
  have e1 : verify_user db u1 p1 = false := by
    unfold verify_user
    rw [h1]
  have e2 : verify_user db u2 p2 = false := by
    unfold verify_user
    rw [h2]
    exact h3
  exact ⟨e1.trans e2.symm, e1⟩

/-- C7 witness: unknown `"mallory"` and known `"alice"` with a wrong password
fail identically. -/
theorem verify_failure_indistinguishable_witness :
    find_user ⟨[⟨1, "alice", hashpw "secret1", "t0"⟩], 2, []⟩ "mallory" =
      none ∧
    find_user ⟨[⟨1, "alice", hashpw "secret1", "t0"⟩], 2, []⟩ "alice" =
      some ⟨1, "alice", hashpw "secret1", "t0"⟩ ∧
    checkpw "wrong" (hashpw "secret1") = false ∧
    (verify_user ⟨[⟨1, "alice", hashpw "secret1", "t0"⟩], 2, []⟩ "mallory"
        "pw" =
      verify_user ⟨[⟨1, "alice", hashpw "secret1", "t0"⟩], 2, []⟩ "alice"
        "wrong" ∧
    verify_user ⟨[⟨1, "alice", hashpw "secret1", "t0"⟩], 2, []⟩ "mallory"
        "pw" = false) :=
  ⟨rfl, rfl, by decide,
    verify_failure_indistinguishable _ "mallory" "pw" "alice" "wrong"
      ⟨1, "alice", hashpw "secret1", "t0"⟩ rfl rfl (by decide)⟩

/-- Two single-character removals equal one filter on both characters. -/
lemma filter_filter_ne (l : List Char) :
    (l.filter (fun a => a ≠ '.')).filter (fun a => a ≠ ',') =
      l.filter (fun c => c ≠ '.' ∧ c ≠ ',') := by
  induction l with
  | nil => rfl
  | cons c l ih => by_cases h1 : c = '.' <;> by_cases h2 : c = ',' <;>
      simp [h1, h2, ih, Bool.and_comm]

/-- C6: the amount handlers remove every `.` and `,` from the trimmed input;
a remainder that is not a non-empty all-decimal-digit string re-prompts and
stays in the amount state, otherwise its decimal value is stored as the
scratch amount and the dialogue advances; `"50.000"` and `"50,000"` both
parse to 50000 and `"50a00"` is rejected. -/
theorem amount_parsing (ud : UserData) (db : DB) (text : String) :
    (stripSeps text).data =
      (pyStrip text).data.filter (fun c => c ≠ '.' ∧ c ≠ ',') ∧
    (pyIsdigit (stripSeps text) = false →
      in_amount ud db text =
        ⟨ud, db, some TxSt.amount, some "Nominal harus angka. Coba lagi:"⟩ ∧
      out_amount ud db text =
        ⟨ud, db, some TxSt.amount, some "Nominal harus angka. Coba lagi:"⟩) ∧
    (pyIsdigit (stripSeps text) = true →
      in_amount ud db text =
        ⟨{ ud with tmp_amount := some (toNatDigits (stripSeps text).data) },
          db, some TxSt.note,
          some "Catatan (boleh kosong, ketik \x27-\x27 untuk skip):"⟩ ∧
      out_amount ud db text =
        ⟨{ ud with tmp_amount := some (toNatDigits (stripSeps text).data) },
          db, some TxSt.note,
          some "Catatan (boleh kosong, ketik \x27-\x27 untuk skip):"⟩) ∧
    toNatDigits (stripSeps "50.000").data = 50000 ∧
    toNatDigits (stripSeps "50,000").data = 50000 ∧
    pyIsdigit (stripSeps "50.000") = true ∧
    pyIsdigit (stripSeps "50,000") = true ∧
    pyIsdigit (stripSeps "50a00") = false := by
  refine ⟨?_, ?_, ?_, by decide, by decide, by decide, by decide, by decide⟩
  · have := filter_filter_ne (pyStrip text).data
    simpa [stripSeps, removeChar] using this
  · intro h
    exact ⟨by simp [in_amount, h], by simp [out_amount, h]⟩
  · intro h
    exact ⟨by simp [in_amount, h], by simp [out_amount, h]⟩

/-- C6 witness: the rejected input `"50a00"` re-prompts in place. -/
theorem amount_parsing_witness :
    pyIsdigit (stripSeps "50a00") = false ∧
    (in_amount ⟨some 1, none, none, none, none⟩ ⟨[], 1, []⟩ "50a00" =
      ⟨⟨some 1, none, none, none, none⟩, ⟨[], 1, []⟩, some TxSt.amount,
        some "Nominal harus angka. Coba lagi:"⟩ ∧
    out_amount ⟨some 1, none, none, none, none⟩ ⟨[], 1, []⟩ "50a00" =
      ⟨⟨some 1, none, none, none, none⟩, ⟨[], 1, []⟩, some TxSt.amount,
        some "Nominal harus angka. Coba lagi:"⟩) :=
  ⟨by decide,
    (amount_parsing ⟨some 1, none, none, none, none⟩ ⟨[], 1, []⟩ "50a00").2.1
      (by decide)⟩

/-- C9: at the note step, trimmed input `-` is stored as an absent note while
any other trimmed input is stored as the note text, and the confirmation for
a recorded amount uses `rupiah`; `rupiah 50000 = "Rp.50.000"` (fixed `Rp.`
prefix, `.`-grouped thousands). -/
theorem note_handling_and_currency (ud : UserData) (db : DB)
    (text now : String) (uid : Nat) (hlog : ud.user_id = some uid) :
    (pyStrip text = "-" →
      in_note ud db text now =
        ⟨{ ud with tmp_amount := none },
          add_tx db uid TxKind.IN (ud.tmp_amount.getD 0) none now, none,
          some ("✅ Uang masuk tercatat: " ++ rupiah (ud.tmp_amount.getD 0))⟩) ∧
    (pyStrip text ≠ "-" →
      in_note ud db text now =
        ⟨{ ud with tmp_amount := none },
          add_tx db uid TxKind.IN (ud.tmp_amount.getD 0)
            (some (pyStrip text)) now, none,
          some ("✅ Uang masuk tercatat: " ++ rupiah (ud.tmp_amount.getD 0))⟩) ∧
    rupiah 50000 = "Rp.50.000" := by
  refine ⟨?_, ?_, by decide⟩ <;> intro h <;> simp [in_note, hlog, h]

/-- C9 witness: note `-` on a logged-in session with scratch amount 50000 is
stored as absent and confirmed as `Rp.50.000`. -/
theorem note_handling_and_currency_witness :
    pyStrip "-" = "-" ∧
    (⟨some 7, some "alice", none, none, some 50000⟩ : UserData).user_id =
      some 7 ∧
    in_note ⟨some 7, some "alice", none, none, some 50000⟩ ⟨[], 1, []⟩ "-"
        "t0" =
      ⟨⟨some 7, some "alice", none, none, none⟩,
        add_tx ⟨[], 1, []⟩ 7 TxKind.IN 50000 none "t0", none,
        some ("✅ Uang masuk tercatat: " ++ rupiah 50000)⟩ :=
  ⟨rfl, rfl,
    (note_handling_and_currency ⟨some 7, some "alice", none, none, some 50000⟩
      ⟨[], 1, []⟩ "-" "t0" 7 rfl).1 rfl⟩

/-- C10: when the note-step handler of either transaction dialogue runs with
the scratch amount absent from the session, it does not fail: it records a
transaction with amount 0 for the logged-in user and reports it as recorded
(`Rp.0`). -/
theorem note_with_missing_scratch (ud : UserData) (db : DB)
    (text now : String) (uid : Nat) (hlog : ud.user_id = some uid)
    (hmiss : ud.tmp_amount = none) :
    in_note ud db text now =
      ⟨{ ud with tmp_amount := none },
        add_tx db uid TxKind.IN 0
          (if pyStrip text = "-" then none else some (pyStrip text)) now,
        none, some "✅ Uang masuk tercatat: Rp.0"⟩ ∧
    out_note ud db text now =
      ⟨{ ud with tmp_amount := none },
        add_tx db uid TxKind.OUT 0
          (if pyStrip text = "-" then none else some (pyStrip text)) now,
        none, some "✅ Uang keluar tercatat: Rp.0"⟩ := by
  have hr : rupiah (0 : Int) = "Rp.0" := by decide
  constructor <;> simp [in_note, out_note, hlog, hmiss, hr]

/-- C10 witness: with `tmp_amount` absent, a note message records an amount-0
income transaction. -/
theorem note_with_missing_scratch_witness :
    (⟨some 7, some "alice", none, none, none⟩ : UserData).user_id = some 7 ∧
    (⟨some 7, some "alice", none, none, none⟩ : UserData).tmp_amount = none ∧
    in_note ⟨some 7, some "alice", none, none, none⟩ ⟨[], 1, []⟩ "makan"
        "t0" =
      ⟨⟨some 7, some "alice", none, none, none⟩,
        add_tx ⟨[], 1, []⟩ 7 TxKind.IN 0
          (if pyStrip "makan" = "-" then none else some (pyStrip "makan"))
          "t0",
        none, some "✅ Uang masuk tercatat: Rp.0"⟩ :=
  ⟨rfl, rfl,
    (note_with_missing_scratch ⟨some 7, some "alice", none, none, none⟩
      ⟨[], 1, []⟩ "makan" "t0" 7 rfl rfl).1⟩

/-- C2 counterexample: from the initial state, `/register` activates the
register dialogue and a following `/login` (a command, matched by no handler
of the active register conversation) falls through to the login
conversation's entry point: afterwards BOTH dialogues hold a state, so a
session is not limited to one active dialogue and starting a new dialogue
does not overwrite the previous one. -/
theorem dialogue_overlap_cex :
    (runMsgs gInit ["/register", "/login"] ⟨⟨2025, 1, 1⟩, 12, 0, 0, 0⟩).regS =
      some RegSt.username ∧
    (runMsgs gInit ["/register", "/login"]
        ⟨⟨2025, 1, 1⟩, 12, 0, 0, 0⟩).loginS = some LoginSt.username ∧
    activeCount (runMsgs gInit ["/register", "/login"]
      ⟨⟨2025, 1, 1⟩, 12, 0, 0, 0⟩) = 2 :=
  ⟨rfl, rfl, rfl⟩

/-- C2 amended: each conversation tracks at most one state of its own, but a
command entry point of an inactive dialogue received while another dialogue
is active starts the new dialogue WITHOUT clearing the old one: the previous
dialogue's state is retained, not overwritten, and both are active. -/
theorem login_entry_keeps_register_active (g : GState) (st : RegSt) (now : DT)
    (hreg : g.regS = some st) (hlogin : g.loginS = none) :
    (step g "/login" now).1.regS = some st ∧
    (step g "/login" now).1.loginS = some LoginSt.username ∧
    (step g "/login" now).1.inS = g.inS ∧
    (step g "/login" now).1.outS = g.outS ∧
    (step g "/login" now).1.ud = g.ud ∧
    (step g "/login" now).1.db = g.db := by
  obtain ⟨ud, db, rs, ls, is0, os0⟩ := g
  dsimp only at hreg hlogin
  subst hreg hlogin
  exact ⟨rfl, rfl, rfl, rfl, rfl, rfl⟩

/-- C2 amended witness: the concrete two-dialogue state arises. -/
theorem login_entry_keeps_register_active_witness :
    (gRegActive.regS = some RegSt.username ∧ gRegActive.loginS = none) ∧
    ((step gRegActive "/login" ⟨⟨2025, 1, 1⟩, 12, 0, 0, 0⟩).1.regS =
        some RegSt.username ∧
      (step gRegActive "/login" ⟨⟨2025, 1, 1⟩, 12, 0, 0, 0⟩).1.loginS =
        some LoginSt.username ∧
      (step gRegActive "/login" ⟨⟨2025, 1, 1⟩, 12, 0, 0, 0⟩).1.inS =
        gRegActive.inS ∧
      (step gRegActive "/login" ⟨⟨2025, 1, 1⟩, 12, 0, 0, 0⟩).1.outS =
        gRegActive.outS ∧
      (step gRegActive "/login" ⟨⟨2025, 1, 1⟩, 12, 0, 0, 0⟩).1.ud =
        gRegActive.ud ∧
      (step gRegActive "/login" ⟨⟨2025, 1, 1⟩, 12, 0, 0, 0⟩).1.db =
        gRegActive.db) :=
  ⟨⟨rfl, rfl⟩,
    login_entry_keeps_register_active gRegActive RegSt.username
      ⟨⟨2025, 1, 1⟩, 12, 0, 0, 0⟩ rfl rfl⟩

/-- C8: from any session state with exactly one dialogue active, in any of
its states, `/cancel` clears all dialogue scratch fields, returns the session
to "no active dialogue", sends the cancelled notice, and leaves the
authentication fields (and the database) unchanged. -/
theorem cancel_resets_dialogue (g : GState) (now : DT)
    (h : activeCount g = 1) :
    (step g "/cancel" now).1.ud.user_id = g.ud.user_id ∧
    (step g "/cancel" now).1.ud.username = g.ud.username ∧
    (step g "/cancel" now).1.ud.reg_username = none ∧
    (step g "/cancel" now).1.ud.login_username = none ∧
    (step g "/cancel" now).1.ud.tmp_amount = none ∧
    activeCount (step g "/cancel" now).1 = 0 ∧
    (step g "/cancel" now).1.db = g.db ∧
    (step g "/cancel" now).2 = some "Dibatalkan." := by
  obtain ⟨ud, db, rs, ls, is0, os0⟩ := g
  rcases rs with _ | rst <;> rcases ls with _ | lst <;>
    rcases is0 with _ | ist <;> rcases os0 with _ | ost <;>
    simp [activeCount] at h <;>
    exact ⟨rfl, rfl, rfl, rfl, rfl, rfl, rfl, rfl⟩

/-- C8 witness: cancelling from the expense dialogue's note state clears
scratch, deactivates the dialogue, and keeps the logged-in identity. -/
theorem cancel_resets_dialogue_witness :
    activeCount gOutNote = 1 ∧
    ((step gOutNote "/cancel" ⟨⟨2025, 1, 1⟩, 12, 0, 0, 0⟩).1.ud.user_id =
        gOutNote.ud.user_id ∧
      (step gOutNote "/cancel" ⟨⟨2025, 1, 1⟩, 12, 0, 0, 0⟩).1.ud.username =
        gOutNote.ud.username ∧
      (step gOutNote "/cancel" ⟨⟨2025, 1, 1⟩, 12, 0, 0, 0⟩).1.ud.reg_username =
        none ∧
      (step gOutNote "/cancel"
          ⟨⟨2025, 1, 1⟩, 12, 0, 0, 0⟩).1.ud.login_username = none ∧
      (step gOutNote "/cancel" ⟨⟨2025, 1, 1⟩, 12, 0, 0, 0⟩).1.ud.tmp_amount =
        none ∧
      activeCount (step gOutNote "/cancel" ⟨⟨2025, 1, 1⟩, 12, 0, 0, 0⟩).1 =
        0 ∧
      (step gOutNote "/cancel" ⟨⟨2025, 1, 1⟩, 12, 0, 0, 0⟩).1.db =
        gOutNote.db ∧
      (step gOutNote "/cancel" ⟨⟨2025, 1, 1⟩, 12, 0, 0, 0⟩).2 =
        some "Dibatalkan.") :=
  ⟨rfl, cancel_resets_dialogue gOutNote ⟨⟨2025, 1, 1⟩, 12, 0, 0, 0⟩ rfl⟩

-- ===== calendar lemmas for the report ranges =====

/-- Every month has at least one day. -/
lemma daysInMonth_pos (y m : Nat) : 1 ≤ daysInMonth y m := by
  unfold daysInMonth
  split
  · split <;> omega
  · split <;> omega

/-- Unfolding `daysBeforeMonth` one month at a time (for a real month). -/
lemma daysBeforeMonth_succ (y m : Nat) (h : 1 ≤ m) :
    daysBeforeMonth y (m + 1) = daysBeforeMonth y m + daysInMonth y m := by
  obtain ⟨n, rfl⟩ : ∃ n, m = n + 1 := ⟨m - 1, by omega⟩
  rfl

/-- The successor of a valid date is valid. -/
lemma dateSucc_valid (d : Date) (h : d.Valid) : (dateSucc d).Valid := by
  obtain ⟨y, m, day⟩ := d
  obtain ⟨hy, hm1, hm2, hd1, hd2⟩ := h
  dsimp only at hy hm1 hm2 hd1 hd2
  have p1 := daysInMonth_pos y (m + 1)
  have p2 := daysInMonth_pos (y + 1) 1
  unfold dateSucc
  dsimp only
  rcases Nat.lt_or_ge day (daysInMonth y m) with hlt | hge
  · rw [if_pos hlt]
    unfold Date.Valid
    dsimp only
    omega
  · rw [if_neg (by omega)]
    rcases Nat.lt_or_ge m 12 with hm | hm'
    · rw [if_pos hm]
      unfold Date.Valid
      dsimp only
      omega
    · rw [if_neg (by omega)]
      unfold Date.Valid
      dsimp only
      omega

set_option maxHeartbeats 1600000 in
/-- `toordinal` counts the successor of a valid date one past the date. -/
lemma toordinal_succ (d : Date) (h : d.Valid) :
    toordinal (dateSucc d) = toordinal d + 1 := by
  obtain ⟨y, m, day⟩ := d
  obtain ⟨hy, hm1, hm2, hd1, hd2⟩ := h
  dsimp only at hy hm1 hm2 hd1 hd2
  unfold dateSucc
  dsimp only
  rcases Nat.lt_or_ge day (daysInMonth y m) with hlt | hge
  · rw [if_pos hlt]
    unfold toordinal
    dsimp only
    omega
  · rw [if_neg (by omega)]
    rcases Nat.lt_or_ge m 12 with hm | hm'
    · rw [if_pos hm]
      unfold toordinal
      dsimp only
      rw [daysBeforeMonth_succ y m hm1]
      have hday : day = daysInMonth y m := by omega
      omega
    · rw [if_neg (by omega)]
      have hm12 : m = 12 := by omega
      subst hm12
      have hdim : daysInMonth y 12 = 31 := by simp [daysInMonth]
      rw [hdim] at hd2 hge
      have hday : day = 31 := by omega
      subst hday
      unfold toordinal
      dsimp only
      have h1 : daysBeforeMonth (y + 1) 1 = 0 := rfl
      rw [h1]
      cases hL : isLeap y
      · have h12 : daysBeforeMonth y 12 = 334 := by
          simp [daysBeforeMonth, daysInMonth, hL]
        rw [h12]
        simp only [isLeap, Bool.or_eq_false_iff, Bool.and_eq_false_iff,
          beq_eq_false_iff_ne, bne_eq_false_iff_eq, ne_eq] at hL
        omega
      · have h12 : daysBeforeMonth y 12 = 335 := by
          simp [daysBeforeMonth, daysInMonth, hL]
        rw [h12]
        simp only [isLeap, Bool.or_eq_true, Bool.and_eq_true, beq_iff_eq,
          bne_iff_ne, ne_eq] at hL
        omega

/-- Adding days preserves validity and advances `toordinal` by that count. -/
lemma addDays_spec (n : Nat) (d : Date) (h : d.Valid) :
    (addDays n d).Valid ∧ toordinal (addDays n d) = toordinal d + n := by
  induction n generalizing d with
  | zero => exact ⟨h, rfl⟩
  | succ n ih =>
    have h1 := dateSucc_valid d h
    obtain ⟨hv, he⟩ := ih (dateSucc d) h1
    refine ⟨hv, ?_⟩
    have : toordinal (addDays n (dateSucc d)) = toordinal (dateSucc d) + n := he
    rw [show addDays (n + 1) d = addDays n (dateSucc d) from rfl, this,
      toordinal_succ d h]
    omega

/-- The predecessor of a valid date other than `0001-01-01` is valid and
`dateSucc` undoes it. -/
lemma datePred_spec (d : Date) (h : d.Valid) (hne : d ≠ ⟨1, 1, 1⟩) :
    (datePred d).Valid ∧ dateSucc (datePred d) = d := by
  obtain ⟨y, m, day⟩ := d
  obtain ⟨hy, hm1, hm2, hd1, hd2⟩ := h
  dsimp only at hy hm1 hm2 hd1 hd2
  unfold datePred
  dsimp only
  rcases Nat.lt_or_ge 1 day with hd | hd
  · rw [if_pos hd]
    constructor
    · unfold Date.Valid
      dsimp only
      omega
    · unfold dateSucc
      dsimp only
      rw [if_pos (by omega : day - 1 < daysInMonth y m)]
      simp only [Date.mk.injEq, true_and, and_true]
      omega
  · rw [if_neg (by omega)]
    rcases Nat.lt_or_ge 1 m with hm | hm
    · rw [if_pos hm]
      have hp := daysInMonth_pos y (m - 1)
      constructor
      · unfold Date.Valid
        dsimp only
        omega
      · unfold dateSucc
        dsimp only
        rw [if_neg (by omega : ¬(daysInMonth y (m - 1) < daysInMonth y (m - 1))),
          if_pos (by omega : m - 1 < 12)]
        simp only [Date.mk.injEq, true_and, and_true]
        omega
    · have hney : y ≠ 1 := by
        intro h1
        apply hne
        simp only [Date.mk.injEq, true_and, and_true]
        omega
      rw [if_neg (by omega)]
      have hdim : daysInMonth (y - 1) 12 = 31 := by simp [daysInMonth]
      constructor
      · unfold Date.Valid
        dsimp only
        omega
      · unfold dateSucc
        dsimp only
        rw [hdim]
        rw [if_neg (by omega : ¬(31 < 31)), if_neg (by omega : ¬(12 < 12))]
        simp only [Date.mk.injEq, true_and, and_true]
        omega

/-- Subtracting fewer days than the ordinal preserves validity and lowers
`toordinal` accordingly. -/
lemma subDays_spec (k : Nat) (d : Date) (h : d.Valid) (hk : k < toordinal d) :
    (subDays k d).Valid ∧ toordinal (subDays k d) = toordinal d - k := by
  induction k generalizing d with
  | zero => exact ⟨h, rfl⟩
  | succ k ih =>
    have hne : d ≠ ⟨1, 1, 1⟩ := by
      intro he
      rw [he] at hk
      have h1 : toordinal ⟨1, 1, 1⟩ = 1 := rfl
      omega
    obtain ⟨hv, hsp⟩ := datePred_spec d h hne
    have hord : toordinal (datePred d) + 1 = toordinal d := by
      rw [← toordinal_succ (datePred d) hv, hsp]
    obtain ⟨hv', he'⟩ := ih (datePred d) hv (by omega)
    refine ⟨hv', ?_⟩
    rw [show subDays (k + 1) d = subDays k (datePred d) from rfl, he']
    omega

/-- A valid time of day is below one day of microseconds. -/
lemma timeOfDay_lt (t : DT) (h : t.Valid) : timeOfDay t < 86400000000 := by
  obtain ⟨d, hh, mm, ss, us⟩ := t
  obtain ⟨hd, h1, h2, h3, h4⟩ := h
  dsimp only at h1 h2 h3 h4
  unfold timeOfDay
  dsimp only
  omega

/-- Two half-open key ranges that abut are disjoint and jointly cover the
span between their outer endpoints. -/
lemma abut_disjoint_cover (r r' : DT × DT) (he : dtKey r.2 = dtKey r'.1) :
    (∀ k, ¬(inRange r k ∧ inRange r' k)) ∧
    (∀ k, dtKey r.1 ≤ k → k < dtKey r'.2 → inRange r k ∨ inRange r' k) := by
  constructor
  · intro k hk
    unfold inRange at hk
    omega
  · intro k h1 h2
    unfold inRange
    omega

/-- The instant lies inside its own `today_range`. -/
lemma today_range_mem (now : DT) (h : now.Valid) :
    dtKey (today_range now).1 ≤ dtKey now ∧
    dtKey now < dtKey (today_range now).2 := by
  obtain ⟨d, hh, mm, ss, us⟩ := now
  obtain ⟨hd, h1, h2, h3, h4⟩ := h
  dsimp only at hd h1 h2 h3 h4
  have hadd := (addDays_spec 1 d hd).2
  unfold today_range atMidnight dtKey timeOfDay
  dsimp only
  rw [hadd]
  omega

/-- Today's range of one day ends exactly where the next day's starts. -/
lemma today_range_adjacent (now now' : DT) (h : now.Valid) (h' : now'.Valid)
    (hs : toordinal now'.date = toordinal now.date + 1) :
    dtKey (today_range now).2 = dtKey (today_range now').1 := by
  obtain ⟨d, hh, mm, ss, us⟩ := now
  obtain ⟨d', hh', mm', ss', us'⟩ := now'
  dsimp only at hs
  have hadd := (addDays_spec 1 d h.1).2
  unfold today_range atMidnight dtKey timeOfDay
  dsimp only
  rw [hadd, hs]

/-- The instant lies inside its own Monday-based week range. -/
lemma week_range_mem (now : DT) (h : now.Valid) (h8 : 8 ≤ toordinal now.date) :
    dtKey (week_range_monday now).1 ≤ dtKey now ∧
    dtKey now < dtKey (week_range_monday now).2 := by
  obtain ⟨d, hh, mm, ss, us⟩ := now
  obtain ⟨hd, h1, h2, h3, h4⟩ := h
  dsimp only at hd h1 h2 h3 h4 h8
  have hw : weekday d < 7 := by unfold weekday; omega
  have hsub := subDays_spec (weekday d) d hd (by omega)
  have hadd := (addDays_spec 7 (subDays (weekday d) d) hsub.1).2
  unfold week_range_monday atMidnight dtKey timeOfDay
  dsimp only
  rw [hadd, hsub.2]
  omega

/-- A week range ends exactly where the following week's range starts. -/
lemma week_range_adjacent (now now' : DT) (h : now.Valid) (h' : now'.Valid)
    (h8 : 8 ≤ toordinal now.date) (h8' : 8 ≤ toordinal now'.date)
    (hlo : toordinal now.date - weekday now.date + 7 ≤ toordinal now'.date)
    (hhi : toordinal now'.date < toordinal now.date - weekday now.date + 14) :
    dtKey (week_range_monday now).2 = dtKey (week_range_monday now').1 := by
  obtain ⟨d, hh, mm, ss, us⟩ := now
  obtain ⟨d', hh', mm', ss', us'⟩ := now'
  dsimp only at h8 h8' hlo hhi
  have hw : weekday d < 7 := by unfold weekday; omega
  have hw' : weekday d' < 7 := by unfold weekday; omega
  have hsub := subDays_spec (weekday d) d h.1 (by omega)
  have hsub' := subDays_spec (weekday d') d' h'.1 (by omega)
  have hadd := (addDays_spec 7 (subDays (weekday d) d) hsub.1).2
  have hkey : toordinal d - weekday d + 7 = toordinal d' - weekday d' := by
    unfold weekday at hlo hhi ⊢
    omega
  unfold week_range_monday atMidnight dtKey timeOfDay
  dsimp only
  rw [hadd, hsub.2, hsub'.2, hkey]

/-- The instant lies inside its own month range (including December). -/
lemma month_range_mem (now : DT) (h : now.Valid) :
    dtKey (month_range now).1 ≤ dtKey now ∧
    dtKey now < dtKey (month_range now).2 := by
  obtain ⟨⟨y, m, day⟩, hh, mm, ss, us⟩ := now
  obtain ⟨⟨hy, hm1, hm2, hd1, hd2⟩, h1, h2, h3, h4⟩ := h
  dsimp only at hy hm1 hm2 hd1 hd2 h1 h2 h3 h4
  have hvdim : (⟨y, m, daysInMonth y m⟩ : Date).Valid :=
    ⟨hy, hm1, hm2, daysInMonth_pos y m, le_refl _⟩
  have hsucc := toordinal_succ ⟨y, m, daysInMonth y m⟩ hvdim
  have hends : dateSucc ⟨y, m, daysInMonth y m⟩ =
      (if m = 12 then (⟨y + 1, 1, 1⟩ : Date) else ⟨y, m + 1, 1⟩) := by
    unfold dateSucc
    dsimp only
    rw [if_neg (lt_irrefl _)]
    by_cases hm : m = 12
    · rw [if_neg (by omega), if_pos hm]
    · rw [if_pos (by omega), if_neg hm]
  unfold month_range atMidnight dtKey timeOfDay
  dsimp only
  rw [← hends, hsucc]
  unfold toordinal
  dsimp only
  omega

/-- A month range ends exactly where the next month's range starts,
including the December-to-January rollover. -/
lemma month_range_adjacent (now now' : DT) (h : now.Valid) (h' : now'.Valid)
    (h12 : now.date.month = 12 →
      now'.date.year = now.date.year + 1 ∧ now'.date.month = 1)
    (hlt : now.date.month < 12 →
      now'.date.year = now.date.year ∧
        now'.date.month = now.date.month + 1) :
    dtKey (month_range now).2 = dtKey (month_range now').1 := by
  obtain ⟨⟨y, m, day⟩, hh, mm, ss, us⟩ := now
  obtain ⟨⟨y', m', day'⟩, hh', mm', ss', us'⟩ := now'
  obtain ⟨⟨hy, hm1, hm2, hd1, hd2⟩, _, _, _, _⟩ := h
  dsimp only at hm2 h12 hlt
  unfold month_range atMidnight dtKey timeOfDay
  dsimp only
  by_cases hm : m = 12
  · obtain ⟨e1, e2⟩ := h12 hm
    rw [if_pos hm, e1, e2]
  · have hmlt : m < 12 := by omega
    obtain ⟨e1, e2⟩ := hlt hmlt
    rw [if_neg hm, e1, e2]

/-- C4: for every valid instant in the fixed +08:00 offset, `today_range`,
`week_range_monday` (Monday start, 7 days) and `month_range` produce
half-open ranges containing the instant; for instants in adjacent periods
the earlier range's end equals the later range's start, so the two ranges
never overlap and leave no gap — including the December-to-January year
rollover, which is the `month = 12` branch of the adjacency hypotheses. -/
theorem range_partition :
    (∀ now : DT, now.Valid →
      dtKey (today_range now).1 ≤ dtKey now ∧
      dtKey now < dtKey (today_range now).2) ∧
    (∀ now now' : DT, now.Valid → now'.Valid →
      toordinal now'.date = toordinal now.date + 1 →
      dtKey (today_range now).2 = dtKey (today_range now').1 ∧
      (∀ k, ¬(inRange (today_range now) k ∧ inRange (today_range now') k)) ∧
      (∀ k, dtKey (today_range now).1 ≤ k → k < dtKey (today_range now').2 →
        inRange (today_range now) k ∨ inRange (today_range now') k)) ∧
    (∀ now : DT, now.Valid → 8 ≤ toordinal now.date →
      dtKey (week_range_monday now).1 ≤ dtKey now ∧
      dtKey now < dtKey (week_range_monday now).2) ∧
    (∀ now now' : DT, now.Valid → now'.Valid →
      8 ≤ toordinal now.date → 8 ≤ toordinal now'.date →
      toordinal now.date - weekday now.date + 7 ≤ toordinal now'.date →
      toordinal now'.date < toordinal now.date - weekday now.date + 14 →
      dtKey (week_range_monday now).2 = dtKey (week_range_monday now').1 ∧
      (∀ k, ¬(inRange (week_range_monday now) k ∧
        inRange (week_range_monday now') k)) ∧
      (∀ k, dtKey (week_range_monday now).1 ≤ k →
        k < dtKey (week_range_monday now').2 →
        inRange (week_range_monday now) k ∨
          inRange (week_range_monday now') k)) ∧
    (∀ now : DT, now.Valid →
      dtKey (month_range now).1 ≤ dtKey now ∧
      dtKey now < dtKey (month_range now).2) ∧
    (∀ now now' : DT, now.Valid → now'.Valid →
      (now.date.month = 12 →
        now'.date.year = now.date.year + 1 ∧ now'.date.month = 1) →
      (now.date.month < 12 →
        now'.date.year = now.date.year ∧
          now'.date.month = now.date.month + 1) →
      dtKey (month_range now).2 = dtKey (month_range now').1 ∧
      (∀ k, ¬(inRange (month_range now) k ∧ inRange (month_range now') k)) ∧
      (∀ k, dtKey (month_range now).1 ≤ k → k < dtKey (month_range now').2 →
        inRange (month_range now) k ∨ inRange (month_range now') k)) := by
  refine ⟨today_range_mem, ?_, week_range_mem, ?_, month_range_mem, ?_⟩
  · intro now now' h h' hs
    have he := today_range_adjacent now now' h h' hs
    exact ⟨he, (abut_disjoint_cover _ _ he).1, (abut_disjoint_cover _ _ he).2⟩
  · intro now now' h h' h8 h8' hlo hhi
    have he := week_range_adjacent now now' h h' h8 h8' hlo hhi
    exact ⟨he, (abut_disjoint_cover _ _ he).1, (abut_disjoint_cover _ _ he).2⟩
  · intro now now' h h' h12 hlt
    have he := month_range_adjacent now now' h h' h12 hlt
    exact ⟨he, (abut_disjoint_cover _ _ he).1, (abut_disjoint_cover _ _ he).2⟩

/-- C4 witness: concrete instants around the 2025→2026 year rollover — Dec
31 2025 23:59:59 lies in its own day/week/month ranges, and those ranges end
exactly where the ranges of Jan 1 2026 00:00:00 (day, month) and Jan 7 2026
(next week) begin. -/
theorem range_partition_witness :
    (dtKey (today_range ⟨⟨2025, 12, 31⟩, 23, 59, 59, 0⟩).1 ≤
        dtKey ⟨⟨2025, 12, 31⟩, 23, 59, 59, 0⟩ ∧
      dtKey ⟨⟨2025, 12, 31⟩, 23, 59, 59, 0⟩ <
        dtKey (today_range ⟨⟨2025, 12, 31⟩, 23, 59, 59, 0⟩).2) ∧
    dtKey (today_range ⟨⟨2025, 12, 31⟩, 23, 59, 59, 0⟩).2 =
      dtKey (today_range ⟨⟨2026, 1, 1⟩, 0, 0, 0, 0⟩).1 ∧
    (dtKey (week_range_monday ⟨⟨2025, 12, 31⟩, 23, 59, 59, 0⟩).1 ≤
        dtKey ⟨⟨2025, 12, 31⟩, 23, 59, 59, 0⟩ ∧
      dtKey ⟨⟨2025, 12, 31⟩, 23, 59, 59, 0⟩ <
        dtKey (week_range_monday ⟨⟨2025, 12, 31⟩, 23, 59, 59, 0⟩).2) ∧
    dtKey (week_range_monday ⟨⟨2025, 12, 31⟩, 23, 59, 59, 0⟩).2 =
      dtKey (week_range_monday ⟨⟨2026, 1, 7⟩, 0, 0, 0, 0⟩).1 ∧
    (dtKey (month_range ⟨⟨2025, 12, 31⟩, 23, 59, 59, 0⟩).1 ≤
        dtKey ⟨⟨2025, 12, 31⟩, 23, 59, 59, 0⟩ ∧
      dtKey ⟨⟨2025, 12, 31⟩, 23, 59, 59, 0⟩ <
        dtKey (month_range ⟨⟨2025, 12, 31⟩, 23, 59, 59, 0⟩).2) ∧
    dtKey (month_range ⟨⟨2025, 12, 31⟩, 23, 59, 59, 0⟩).2 =
      dtKey (month_range ⟨⟨2026, 1, 1⟩, 0, 0, 0, 0⟩).1 :=
  ⟨range_partition.1 ⟨⟨2025, 12, 31⟩, 23, 59, 59, 0⟩ (by decide),
    (range_partition.2.1 ⟨⟨2025, 12, 31⟩, 23, 59, 59, 0⟩
      ⟨⟨2026, 1, 1⟩, 0, 0, 0, 0⟩ (by decide) (by decide) (by decide)).1,
    range_partition.2.2.1 ⟨⟨2025, 12, 31⟩, 23, 59, 59, 0⟩ (by decide)
      (by decide),
    (range_partition.2.2.2.1 ⟨⟨2025, 12, 31⟩, 23, 59, 59, 0⟩
      ⟨⟨2026, 1, 7⟩, 0, 0, 0, 0⟩ (by decide) (by decide) (by decide)
      (by decide) (by decide) (by decide)).1,
    range_partition.2.2.2.2.1 ⟨⟨2025, 12, 31⟩, 23, 59, 59, 0⟩ (by decide),
    (range_partition.2.2.2.2.2 ⟨⟨2025, 12, 31⟩, 23, 59, 59, 0⟩
      ⟨⟨2026, 1, 1⟩, 0, 0, 0, 0⟩ (by decide) (by decide) (by decide)
      (by decide)).1⟩
